import Mathlib

/-!
Shallow embedding of the order/payment reconciliation core of `src/server.js`
(Express + Mongoose backend for a hotel/food ordering storefront).

Modelling conventions:
- MongoDB documents become Lean structures; the store is a `List` of documents.
- `Model.findOne(query)` becomes `List.find?` with the corresponding predicate
  (MongoDB string matching is exact, i.e. case-sensitive, by default).
- `doc.save()` after mutating a document found by `findOne` becomes
  `updateFirst`: the first matching element of the list is replaced.
- Timestamps (`Date.now()`, `new Date()`) are `Nat` parameters.
- `Math.random().toString(36)` is modelled by its resulting string, passed in
  as a parameter (the code only ever uses the string form).
- The HMAC-SHA512 digest utility (`crypto.createHmac(...).digest('hex')`) is
  an external cryptographic collaborator per the spec; it is modelled as an
  abstract function parameter `digest : String → String → String`
  (secret, serialized body).
- Remote gateway calls (axios) are modelled by their outcome, passed in as a
  parameter (`gatewayOk : Bool`, or the reported status string).
-/

namespace PhilBackend

/-- `status` enum of the order schema: pending, paid, confirmed, cancelled. -/
inductive OrderStatus
  | pending
  | paid
  | confirmed
  | cancelled
deriving DecidableEq

/-- `paymentStatus` enum of the order schema: pending, success, failed. -/
inductive PaymentStatus
  | pending
  | success
  | failed
deriving DecidableEq

/-- Customer document (customerSchema). `id` models the Mongo `_id`. -/
structure Customer where
  id : Nat
  email : String
  firstName : String
  lastName : String
  phone : String
  createdAt : Nat
deriving DecidableEq

/-- Line item of an order (items subdocument of orderSchema). -/
structure LineItem where
  itemId : String
  name : String
  price : Int
  quantity : Nat
  checkIn : Option Nat
  checkOut : Option Nat
  category : Option String
deriving DecidableEq

/-- Order document (orderSchema). `customer` is the referenced customer id. -/
structure Order where
  id : Nat
  customer : Nat
  orderCode : String
  otype : String
  items : List LineItem
  totalAmount : Int
  status : OrderStatus
  paymentStatus : PaymentStatus
  paymentReference : Option String
  createdAt : Nat
  updatedAt : Nat
deriving DecidableEq

/-- JS `s.slice(-6)`: the last 6 characters (the whole string if shorter). -/
def jsSliceLast6 (s : String) : String :=
  String.mk (s.data.drop (s.data.length - 6))

/-- JS `s.substring(2, 6)`: characters at indices 2 to 5. -/
def jsSubstring2to6 (s : String) : String :=
  String.mk ((s.data.drop 2).take 4)

/-- JS `s.toUpperCase()` (ASCII). -/
def jsToUpper (s : String) : String :=
  String.mk (s.data.map Char.toUpper)

/-- JS `s.toLowerCase()` (ASCII). -/
def jsToLower (s : String) : String :=
  String.mk (s.data.map Char.toLower)

/-- `generateOrderCode` from server.js: fixed PH prefix, last 6 digits of
`Date.now()`, and `Math.random().toString(36).substring(2, 6).toUpperCase()`.
`now` is the millisecond timestamp; `rand36` is the base-36 string rendering
of the `Math.random()` result (of the form `0.xxxx`). No store argument:
generation performs no lookup. -/
def generateOrderCode (now : Nat) (rand36 : String) : String :=
  "PH" ++ jsSliceLast6 (toString now) ++ jsToUpper (jsSubstring2to6 rand36)

/-- Mongoose `findOne`-then-`save` update: replace the first element
satisfying `p` by its image under `f`; if none matches, leave the list
unchanged. -/
def updateFirst (p : Order → Bool) (f : Order → Order) : List Order → List Order
  | [] => []
  | o :: os => if p o then f o :: os else o :: updateFirst p f os

/-- The order-code allocation loop of the POST /api/orders handler
(lines 114-124): `while (!isUnique) { orderCode = generateOrderCode();
if (!await Order.findOne({orderCode})) isUnique = true; }`.
`gen i` is the code produced by the i-th call to `generateOrderCode`
(fresh each iteration). `fuel` bounds the modelled iterations only (the JS
loop itself is unbounded); returns the accepted code together with the
number of attempts made, or `none` when `fuel` iterations did not suffice
(the JS loop would simply keep running). -/
def allocOrderCode (orders : List Order) (gen : Nat → String) :
    Nat → Nat → Option (String × Nat)
  | 0, _ => none
  | fuel + 1, i =>
    let c := gen i
    if (orders.find? (fun o => o.orderCode == c)).isSome then
      allocOrderCode orders gen fuel (i + 1)
    else
      some (c, i + 1)

/-- Request body of POST /api/customers (and `customerData` of POST /api/orders). -/
structure CustomerReq where
  email : String
  firstName : String
  lastName : String
  phone : String
deriving DecidableEq

/-- `new Customer({ email, firstName, lastName, phone })` with a fresh id and
the schema default `createdAt: Date.now`. -/
def mkCustomerFromReq (req : CustomerReq) (newId now : Nat) : Customer :=
  { id := newId
    email := req.email
    firstName := req.firstName
    lastName := req.lastName
    phone := req.phone
    createdAt := now }

/-- POST /api/customers handler (lines 84-99): `Customer.findOne({ email })`
(exact string match); create and append a new customer when none matches;
respond 201 with the customer either way. Returns
(HTTP status, customer in the response, customer store after). -/
def apiCustomers (req : CustomerReq) (newId now : Nat) (customers : List Customer) :
    Nat × Customer × List Customer :=
  match customers.find? (fun c => c.email == req.email) with
  | some c => (201, c, customers)
  | none =>
    let c := mkCustomerFromReq req newId now
    (201, c, customers ++ [c])

/-- Insertion step for `.sort({ createdAt: -1 })`: keep elements with
`createdAt` ≥ the inserted one ahead of it. -/
def insertByCreatedDesc (o : Order) : List Order → List Order
  | [] => [o]
  | x :: xs => if o.createdAt ≤ x.createdAt then x :: insertByCreatedDesc o xs else o :: x :: xs

/-- `Order.find(...).sort({ createdAt: -1 })`: the matching orders sorted by
`createdAt` descending. -/
def sortByCreatedDesc : List Order → List Order
  | [] => []
  | x :: xs => insertByCreatedDesc x (sortByCreatedDesc xs)

/-- Response of POST /api/orders/verify: HTTP status, the single verified
order (orderCode branch), or the customer order list (no-orderCode branch). -/
structure OrdersVerifyResp where
  status : Nat
  order : Option Order
  orders : Option (List Order)
deriving DecidableEq

/-- POST /api/orders/verify handler (lines 284-337). `email`/`orderCode` are
`none` when absent from the body. With an orderCode: look the order up by
code (404 when none), resolve its customer (`populate`; an unresolvable
reference would throw into the catch, 500) and compare emails lowercased
(403 on mismatch, 200 with the order on match). Without an orderCode: look
the customer up by the lowercased email (404 when none), else 200 with that
customer's orders sorted by `createdAt` descending. -/
def apiOrdersVerify (email orderCode : Option String)
    (customers : List Customer) (orders : List Order) : OrdersVerifyResp :=
  match email with
  | none => ⟨400, none, none⟩
  | some e =>
    match orderCode with
    | some code =>
      match orders.find? (fun o => o.orderCode == code) with
      | none => ⟨404, none, none⟩
      | some o =>
        match customers.find? (fun c => c.id == o.customer) with
        | none => ⟨500, none, none⟩
        | some c =>
          if jsToLower c.email ≠ jsToLower e then ⟨403, none, none⟩
          else ⟨200, some o, none⟩
    | none =>
      match customers.find? (fun c => c.email == jsToLower e) with
      | none => ⟨404, none, none⟩
      | some c =>
        ⟨200, none, some (sortByCreatedDesc (orders.filter (fun o => o.customer == c.id)))⟩

/-- POST /api/payments/initialize handler (lines 148-199). `gatewayOk` models
the outcome of the axios call to the gateway (a failure throws into the
catch: 500, nothing saved). On success the handler sets
`order.paymentReference = "order_" + order._id + "_" + Date.now()`
unconditionally and saves, touching no other field. Returns
(HTTP status, order store after, reference in the response). -/
def apiPaymentsInitialize (orderId now : Nat) (gatewayOk : Bool) (orders : List Order) :
    Nat × List Order × Option String :=
  match orders.find? (fun o => o.id == orderId) with
  | none => (404, orders, none)
  | some o =>
    if gatewayOk then
      let ref := "order_" ++ toString o.id ++ "_" ++ toString now
      (200,
       updateFirst (fun x => x.id == o.id)
         (fun x => { x with paymentReference := some ref }) orders,
       some ref)
    else
      (500, orders, none)

/-- The success mutation shared verbatim by the verify handler (lines 221-223)
and the webhook handler (lines 354-356):
`order.paymentStatus = 'success'; order.status = 'paid';
order.updatedAt = new Date();` followed by `save()`. -/
def applySuccess (now : Nat) (o : Order) : Order :=
  { o with paymentStatus := PaymentStatus.success
           status := OrderStatus.paid
           updatedAt := now }

/-- POST /api/payments/verify handler (lines 202-243). `gwStatus` is the
status string the gateway reports for `reference` (an axios failure would
take the catch: 500, nothing saved — not modelled further since no claim
needs it). Only `gwStatus = "success"` mutates: the first order with that
`paymentReference` gets `applySuccess`. Responds 200 with the gateway data
regardless of whether an order matched. Returns (HTTP status, order store
after). -/
def apiPaymentsVerify (reference gwStatus : String) (now : Nat) (orders : List Order) :
    Nat × List Order :=
  if gwStatus == "success" then
    (200, updateFirst (fun o => o.paymentReference == some reference) (applySuccess now) orders)
  else
    (200, orders)

/-- Webhook request: event type (`event.event`), `event.data.reference`, the
serialized body (`JSON.stringify(req.body)`) and the
`x-paystack-signature` header. -/
structure WebhookReq where
  eventType : String
  dataReference : String
  serialized : String
  signature : String
deriving DecidableEq

/-- POST /api/webhooks/paystack handler (lines 340-367). `digest secret body`
models the external HMAC-SHA512 hex digest collaborator. On signature match
and `event.event === "charge.success"`, the first order whose
`paymentReference` equals `event.data.reference` gets `applySuccess`; in
every case (mismatch, unknown event, unknown order, applied) the handler
responds 200 OK. Returns (HTTP status, order store after). -/
def apiWebhooksPaystack (digest : String → String → String) (secret : String)
    (req : WebhookReq) (now : Nat) (orders : List Order) : Nat × List Order :=
  if digest secret req.serialized == req.signature then
    if req.eventType == "charge.success" then
      (200, updateFirst (fun o => o.paymentReference == some req.dataReference)
              (applySuccess now) orders)
    else
      (200, orders)
  else
    (200, orders)

/-! ## Helper lemmas -/

theorem updateFirst_decomp (p : Order → Bool) (f : Order → Order) (l : List Order) (o : Order)
    (h : l.find? p = some o) :
    ∃ l1 l2, l = l1 ++ o :: l2 ∧ updateFirst p f l = l1 ++ f o :: l2 := by
  induction l with
  | nil => simp [List.find?] at h
  | cons x xs ih =>
    by_cases hx : p x
    · rw [List.find?_cons_of_pos _ hx] at h
      obtain rfl : x = o := by injection h
      exact ⟨[], xs, rfl, by simp [updateFirst, hx]⟩
    · rw [List.find?_cons_of_neg _ hx] at h
      obtain ⟨l1, l2, hl, hup⟩ := ih h
      exact ⟨x :: l1, l2, by simp [hl], by simp [updateFirst, hx, hup]⟩

theorem mem_insertByCreatedDesc (o x : Order) (l : List Order) :
    x ∈ insertByCreatedDesc o l ↔ x = o ∨ x ∈ l := by
  induction l with
  | nil => simp [insertByCreatedDesc]
  | cons y ys ih =>
    by_cases h : o.createdAt ≤ y.createdAt
    · simp only [insertByCreatedDesc, if_pos h, List.mem_cons, ih]
      tauto
    · simp only [insertByCreatedDesc, if_neg h, List.mem_cons]

theorem mem_sortByCreatedDesc (x : Order) (l : List Order) :
    x ∈ sortByCreatedDesc l ↔ x ∈ l := by
  induction l with
  | nil => simp [sortByCreatedDesc]
  | cons y ys ih => simp [sortByCreatedDesc, mem_insertByCreatedDesc, ih]

theorem allocOrderCode_aux (orders : List Order) (gen : Nat → String) :
    ∀ (n fuel i : Nat), n < fuel →
      (∀ j, j < n → (orders.find? (fun o => o.orderCode == gen (i + j))).isSome = true) →
      (orders.find? (fun o => o.orderCode == gen (i + n))).isSome = false →
      allocOrderCode orders gen fuel i = some (gen (i + n), i + n + 1) := by
  intro n
  induction n with
  | zero =>
    intro fuel i hf _ hfree
    obtain ⟨f, rfl⟩ : ∃ f, fuel = f + 1 := ⟨fuel - 1, by omega⟩
    rw [Nat.add_zero] at hfree
    simp [allocOrderCode, hfree]
  | succ n ih =>
    intro fuel i hf htaken hfree
    obtain ⟨f, rfl⟩ : ∃ f, fuel = f + 1 := ⟨fuel - 1, by omega⟩
    have h0 := htaken 0 (Nat.succ_pos n)
    rw [Nat.add_zero] at h0
    have hrec : allocOrderCode orders gen (f + 1) i = allocOrderCode orders gen f (i + 1) := by
      simp [allocOrderCode, h0]
    rw [hrec]
    have htaken2 : ∀ j, j < n →
        (orders.find? (fun o => o.orderCode == gen (i + 1 + j))).isSome = true := by
      intro j hj
      have := htaken (j + 1) (by omega)
      rwa [show i + (j + 1) = i + 1 + j by omega] at this
    have hfree2 : (orders.find? (fun o => o.orderCode == gen (i + 1 + n))).isSome = false := by
      rwa [show i + (n + 1) = i + 1 + n by omega] at hfree
    have hres := ih f (i + 1) (by omega) htaken2 hfree2
    rw [show i + (n + 1) = i + 1 + n by omega]
    exact hres

/-! ## Test fixtures (concrete documents used by counterexamples and witnesses) -/

/-- The order of the spec scenario in §8: food order, total 20, fresh state. -/
def baseOrder : Order :=
  { id := 1
    customer := 1
    orderCode := "PH000001AAAA"
    otype := "food"
    items := [{ itemId := "x", name := "Pizza", price := 10, quantity := 2,
                checkIn := none, checkOut := none, category := none }]
    totalAmount := 20
    status := OrderStatus.pending
    paymentStatus := PaymentStatus.pending
    paymentReference := none
    createdAt := 0
    updatedAt := 0 }

/-- Six orders whose codes C0 .. C5 collide with the first six candidates. -/
def allocExOrders : List Order :=
  (List.range 6).map (fun j => { baseOrder with id := j, orderCode := "C" ++ toString j })

/-- Candidate stream whose i-th generated code is Ci. -/
def allocExGen : Nat → String := fun i => "C" ++ toString i

/-! ## C1: order-code allocation bounded by a maximum retry count -/

/-- C1 counterexample: with the six codes C0 .. C5 already taken, the
allocation loop of POST /api/orders makes 7 attempts and succeeds with the
7th candidate; it does not stop after a maximum of 5 retries and never
produces a CodeAllocationExhausted error, contradicting the claim that the
number of attempts is bounded by a maximum retry count of 5 with an error
after exhaustion. -/
theorem allocOrderCode_not_bounded_cex :
    allocOrderCode allocExOrders allocExGen 20 0 = some ("C6", 7) ∧ ¬ (7 ≤ 5) := by
  exact ⟨by decide, by decide⟩

/-- C1 (amended): each retry of the order-code allocation loop proposes a
fresh candidate (attempt i checks `gen i`), but the loop is unbounded: for
every `n`, when the first `n` candidates are all taken and candidate `n` is
free, the loop runs `n + 1` attempts and returns candidate `n` — there is no
maximum retry count and no CodeAllocationExhausted failure. -/
theorem allocOrderCode_unbounded (orders : List Order) (gen : Nat → String)
    (n fuel : Nat) (hf : n < fuel)
    (htaken : ∀ j, j < n → (orders.find? (fun o => o.orderCode == gen j)).isSome = true)
    (hfree : (orders.find? (fun o => o.orderCode == gen n)).isSome = false) :
    allocOrderCode orders gen fuel 0 = some (gen n, n + 1) := by
  have h := allocOrderCode_aux orders gen n fuel 0 hf
    (by simpa using htaken) (by simpa using hfree)
  simpa using h

/-- Witness for C1 (amended): on the concrete store with C0 .. C5 taken, the
loop returns candidate 6 after 7 attempts. -/
theorem allocOrderCode_unbounded_witness :
    allocOrderCode allocExOrders allocExGen 20 0 = some (allocExGen 6, 7) :=
  allocOrderCode_unbounded allocExOrders allocExGen 6 20 (by decide)
    (by intro j hj; interval_cases j <;> decide) (by decide)

/-! ## C2: the webhook handler acknowledges with 200 in every case -/

/-- C2: for every webhook request — signature mismatch, signature match with
an event other than charge.success, charge.success with no matching order,
or charge.success applied to a matching order — the handler responds
HTTP 200; the modelled handler has no other outcome (the 500 catch is
reachable only from a failure outside the model, i.e. a truly unexpected
internal fault). -/
theorem webhook_always_200 (digest : String → String → String) (secret : String)
    (req : WebhookReq) (now : Nat) (orders : List Order) :
    (apiWebhooksPaystack digest secret req now orders).1 = 200 := by
  unfold apiWebhooksPaystack
  split
  · split <;> rfl
  · rfl

/-! ## C3: a failed gateway status and the order's paymentStatus -/

/-- C3 counterexample: an order awaiting payment under reference r is left
with paymentStatus = pending — not set to failed — when the gateway verify
call reports status failed; the store is completely unchanged, contradicting
the claim that the order's paymentStatus is set to failed. -/
theorem verify_failed_cex :
    apiPaymentsVerify "r" "failed" 9 [{ baseOrder with paymentReference := some "r" }] =
      (200, [{ baseOrder with paymentReference := some "r" }]) ∧
    ({ baseOrder with paymentReference := some "r" } : Order).paymentStatus =
      PaymentStatus.pending ∧
    PaymentStatus.pending ≠ PaymentStatus.failed := by
  exact ⟨by decide, rfl, by decide⟩

/-- C3 (amended): when the gateway verify call reports any status other than
success (in particular failed) for a payment reference, the verify handler
mutates nothing: every order — including one awaiting payment under that
reference — keeps its previous paymentStatus and status, and the handler
still responds 200. -/
theorem verify_non_success_no_mutation (reference gwStatus : String) (now : Nat)
    (orders : List Order) (h : gwStatus ≠ "success") :
    apiPaymentsVerify reference gwStatus now orders = (200, orders) := by
  simp [apiPaymentsVerify, h]

/-- Witness for C3 (amended): the failed status on a concrete awaiting order. -/
theorem verify_non_success_no_mutation_witness :
    apiPaymentsVerify "r" "failed" 9 [{ baseOrder with paymentReference := some "r" }] =
      (200, [{ baseOrder with paymentReference := some "r" }]) :=
  verify_non_success_no_mutation "r" "failed" 9
    [{ baseOrder with paymentReference := some "r" }] (by decide)

/-! ## C4: idempotence of the PaymentSucceeded transition -/

theorem updateFirst_twice (p : Order → Bool) (f g : Order → Order)
    (hpres : ∀ o, p (g o) = p o) (hcomp : ∀ o, f (g o) = f o) (l : List Order) :
    updateFirst p f (updateFirst p g l) = updateFirst p f l := by
  induction l with
  | nil => rfl
  | cons x xs ih =>
    by_cases hx : p x
    · simp [updateFirst, hx, hpres, hcomp]
    · simp [updateFirst, hx, ih]

/-- C4: applying the success transition (the field mutation shared verbatim
by the verify and webhook paths) to an order already in status = paid,
paymentStatus = success yields exactly the original order with a refreshed
updatedAt; re-applying never errors and never regresses status or
paymentStatus; and at the store level, applying the transition twice to the
order matching a payment reference — each application being the effect of
either the verify path or the webhook path, so this covers
verify-then-webhook, webhook-then-webhook, and both other orders — equals
applying it once at the later timestamp. -/
theorem applySuccess_idempotent (o : Order) (t t2 : Nat) (reference : String)
    (orders : List Order)
    (h1 : o.status = OrderStatus.paid) (h2 : o.paymentStatus = PaymentStatus.success) :
    applySuccess t o = { o with updatedAt := t } ∧
    applySuccess t2 (applySuccess t o) = { applySuccess t o with updatedAt := t2 } ∧
    (applySuccess t o).status = OrderStatus.paid ∧
    (applySuccess t o).paymentStatus = PaymentStatus.success ∧
    updateFirst (fun x => x.paymentReference == some reference) (applySuccess t2)
      (updateFirst (fun x => x.paymentReference == some reference) (applySuccess t) orders) =
      updateFirst (fun x => x.paymentReference == some reference) (applySuccess t2) orders := by
  refine ⟨?_, rfl, rfl, rfl, ?_⟩
  · simp [applySuccess, h1, h2]
  · exact updateFirst_twice (fun x => x.paymentReference == some reference)
      (applySuccess t2) (applySuccess t) (fun _ => rfl) (fun _ => rfl) orders

/-- A concrete order that has already gone through PaymentSucceeded. -/
def paidOrder : Order :=
  { baseOrder with
      status := OrderStatus.paid
      paymentStatus := PaymentStatus.success
      paymentReference := some "r" }

/-- Witness for C4: a concrete already-paid order under reference r. -/
theorem applySuccess_idempotent_witness :
    applySuccess 5 paidOrder = { paidOrder with updatedAt := 5 } ∧
    applySuccess 7 (applySuccess 5 paidOrder) =
      { applySuccess 5 paidOrder with updatedAt := 7 } ∧
    (applySuccess 5 paidOrder).status = OrderStatus.paid ∧
    (applySuccess 5 paidOrder).paymentStatus = PaymentStatus.success ∧
    updateFirst (fun x => x.paymentReference == some "r") (applySuccess 7)
      (updateFirst (fun x => x.paymentReference == some "r") (applySuccess 5) [paidOrder]) =
      updateFirst (fun x => x.paymentReference == some "r") (applySuccess 7) [paidOrder] :=
  applySuccess_idempotent paidOrder 5 7 "r" [paidOrder] rfl rfl

/-! ## C5: a mismatched signature never mutates the store -/

/-- C5: whenever the HMAC-SHA512 digest of the serialized body under the
shared secret differs from the x-paystack-signature header, the webhook
handler leaves the order store exactly as it was (and still responds 200),
regardless of the payload content. -/
theorem webhook_bad_signature_no_mutation (digest : String → String → String)
    (secret : String) (req : WebhookReq) (now : Nat) (orders : List Order)
    (h : digest secret req.serialized ≠ req.signature) :
    apiWebhooksPaystack digest secret req now orders = (200, orders) := by
  simp [apiWebhooksPaystack, h]

/-- Witness for C5: a concrete digest collaborator and a request whose
signature header does not match, on a one-order store. -/
theorem webhook_bad_signature_no_mutation_witness :
    apiWebhooksPaystack (fun _ _ => "aaaa") "secret"
      { eventType := "charge.success", dataReference := "r",
        serialized := "body", signature := "bbbb" } 5
      [{ baseOrder with paymentReference := some "r" }] =
      (200, [{ baseOrder with paymentReference := some "r" }]) :=
  webhook_bad_signature_no_mutation (fun _ _ => "aaaa") "secret"
    { eventType := "charge.success", dataReference := "r",
      serialized := "body", signature := "bbbb" } 5
    [{ baseOrder with paymentReference := some "r" }] (by decide)

/-! ## C6: customer resolution keyed by email -/

/-- An existing customer, stored with an all-lowercase email. -/
def custA : Customer :=
  { id := 1, email := "a@b.com", firstName := "A", lastName := "B",
    phone := "123", createdAt := 0 }

/-- The same profile submitted with a capitalised email. -/
def reqUpperA : CustomerReq :=
  { email := "A@b.com", firstName := "A", lastName := "B", phone := "123" }

/-- C6 counterexample: the supplied email A@b.com equals the stored email
a@b.com ignoring case, yet the handler creates and returns a second, new
customer — the lookup `Customer.findOne({ email })` is an exact
(case-sensitive) match, contradicting the claim that resolution is keyed by
case-insensitive email. -/
theorem apiCustomers_case_sensitive_cex :
    jsToLower reqUpperA.email = jsToLower custA.email ∧
    (apiCustomers reqUpperA 2 9 [custA]).2.2 = [custA, mkCustomerFromReq reqUpperA 2 9] ∧
    (apiCustomers reqUpperA 2 9 [custA]).2.1 ≠ custA := by
  exact ⟨by decide, by decide, by decide⟩

/-- C6 (amended): customer resolution is an idempotent get-or-create keyed by
EXACT (case-sensitive) email: when a customer whose stored email is
literally equal to the supplied email exists, that customer is returned
unchanged and the store is untouched; otherwise a new customer built from
the request is appended and returned (a customer differing only in email
case does not match and a duplicate is created). -/
theorem apiCustomers_get_or_create_exact (req : CustomerReq) (newId now : Nat)
    (customers : List Customer) :
    (∀ c, customers.find? (fun x => x.email == req.email) = some c →
      apiCustomers req newId now customers = (201, c, customers)) ∧
    (customers.find? (fun x => x.email == req.email) = none →
      apiCustomers req newId now customers =
        (201, mkCustomerFromReq req newId now, customers ++ [mkCustomerFromReq req newId now])) := by
  constructor
  · intro c hc
    simp [apiCustomers, hc]
  · intro hn
    simp [apiCustomers, hn]

/-- Witness for C6 (amended): an exact-match request returns the stored
customer and leaves the store unchanged. -/
theorem apiCustomers_get_or_create_exact_witness :
    apiCustomers { email := "a@b.com", firstName := "A", lastName := "B", phone := "123" }
      2 9 [custA] = (201, custA, [custA]) :=
  (apiCustomers_get_or_create_exact
    { email := "a@b.com", firstName := "A", lastName := "B", phone := "123" }
    2 9 [custA]).1 custA (by decide)

/-! ## C7: verifyOwnership outcome taxonomy -/

/-- C7: the orderCode branch of POST /api/orders/verify returns 404 when no
order carries the code; when the order exists and its customer resolves, it
returns 403 (ownership mismatch, not 404) when the customer's email differs
from the supplied email ignoring case, and 200 with the order when the two
emails are equal ignoring case. -/
theorem apiOrdersVerify_ownership (e code : String)
    (customers : List Customer) (orders : List Order) :
    (orders.find? (fun o => o.orderCode == code) = none →
      apiOrdersVerify (some e) (some code) customers orders = ⟨404, none, none⟩) ∧
    (∀ o c, orders.find? (fun o => o.orderCode == code) = some o →
      customers.find? (fun x => x.id == o.customer) = some c →
      ((jsToLower c.email ≠ jsToLower e →
          apiOrdersVerify (some e) (some code) customers orders = ⟨403, none, none⟩) ∧
       (jsToLower c.email = jsToLower e →
          apiOrdersVerify (some e) (some code) customers orders = ⟨200, some o, none⟩))) := by
  constructor
  · intro hn
    simp [apiOrdersVerify, hn]
  · intro o c ho hc
    constructor
    · intro hne
      simp [apiOrdersVerify, ho, hc, hne]
    · intro heq
      simp [apiOrdersVerify, ho, hc, heq]

/-- A customer of the §8 ownership test, stored with lowercase email. -/
def custAX : Customer :=
  { id := 3, email := "a@x.com", firstName := "A", lastName := "X",
    phone := "555", createdAt := 0 }

/-- An order owned by custAX. -/
def orderAX : Order :=
  { baseOrder with id := 7, customer := 3, orderCode := "PHCODE" }

/-- Witness for C7: A@x.com verifies ownership of an order whose customer
email is a@x.com (spec §8 test), exercising the 200 branch. -/
theorem apiOrdersVerify_ownership_witness :
    apiOrdersVerify (some "A@x.com") (some "PHCODE") [custAX] [orderAX] =
      ⟨200, some orderAX, none⟩ :=
  ((apiOrdersVerify_ownership "A@x.com" "PHCODE" [custAX] [orderAX]).2
    orderAX custAX (by decide) (by decide)).2 (by decide)

/-! ## C8: shape of generated order codes -/

theorem jsSliceLast6_length (s : String) (h : 6 ≤ s.length) :
    (jsSliceLast6 s).length = 6 := by
  unfold jsSliceLast6
  obtain ⟨l⟩ := s
  simp only [String.length] at *
  simp [List.length_drop]
  omega

theorem jsRandSegment_length (s : String) (h : 6 ≤ s.length) :
    (jsToUpper (jsSubstring2to6 s)).length = 4 := by
  unfold jsToUpper jsSubstring2to6
  obtain ⟨l⟩ := s
  simp only [String.length] at *
  simp
  omega

/-- C8 counterexample: Math.random() can return exactly 0.5 (a value of the
form k·2⁻⁵³ in [0, 1)), whose base-36 rendering is 0.i; then
substring(2, 6) keeps the single character i and the generated code is
PH000123I of length 9, not 12 — the random segment is not always 4
characters (the code does still start with PH). -/
theorem generateOrderCode_length_cex :
    generateOrderCode 1728000000123 "0.i" = "PH000123I" ∧
    (generateOrderCode 1728000000123 "0.i").length = 9 ∧ (9 : Nat) ≠ 12 := by
  exact ⟨by decide, by decide, by decide⟩

/-- C8 (amended): whenever the decimal rendering of `Date.now()` has at
least 6 digits (true since 1970) and the base-36 rendering `0.xxxx` of
Math.random() has at least 4 fractional digits (all cases but a sparse set
of dyadic rationals), the generated order code is the fixed PH prefix
followed by the 6-character time-derived segment and the 4-character random
segment: it starts with PH and has total length 12; with fewer fractional
digits only the random segment, and hence the total length, shrinks.
`generateOrderCode` takes no store argument: generation performs no store
lookup. -/
theorem generateOrderCode_shape (now : Nat) (rand36 : String)
    (hn : 6 ≤ (toString now).length) (hr : 6 ≤ rand36.length) :
    generateOrderCode now rand36 =
      "PH" ++ jsSliceLast6 (toString now) ++ jsToUpper (jsSubstring2to6 rand36) ∧
    (jsSliceLast6 (toString now)).length = 6 ∧
    (jsToUpper (jsSubstring2to6 rand36)).length = 4 ∧
    (generateOrderCode now rand36).data.take 2 = ['P', 'H'] ∧
    (generateOrderCode now rand36).length = 12 := by
  have h1 := jsSliceLast6_length (toString now) hn
  have h2 := jsRandSegment_length rand36 hr
  refine ⟨rfl, h1, h2, ?_, ?_⟩
  · unfold generateOrderCode
    simp [String.data_append]
  · unfold generateOrderCode
    rw [String.length_append, String.length_append, h1, h2]
    decide

/-- Witness for C8: a realistic 13-digit millisecond timestamp and a typical
Math.random base-36 rendering. -/
theorem generateOrderCode_shape_witness :
    generateOrderCode 1728000000123 "0.k3j9x" =
      "PH" ++ jsSliceLast6 (toString 1728000000123) ++ jsToUpper (jsSubstring2to6 "0.k3j9x") ∧
    (jsSliceLast6 (toString 1728000000123)).length = 6 ∧
    (jsToUpper (jsSubstring2to6 "0.k3j9x")).length = 4 ∧
    (generateOrderCode 1728000000123 "0.k3j9x").data.take 2 = ['P', 'H'] ∧
    (generateOrderCode 1728000000123 "0.k3j9x").length = 12 :=
  generateOrderCode_shape 1728000000123 "0.k3j9x" (by decide) (by decide)

/-! ## C9: POST /api/orders/verify with an email and no orderCode -/

/-- C9: calling POST /api/orders/verify with an email but no orderCode is not
a validation error (never 400): the handler looks the customer up by the
lowercased email and responds 404 when no customer matches, else 200 with
that customer's full order list (the orders referencing the customer,
sorted by createdAt descending — same members as the unsorted selection). -/
theorem apiOrdersVerify_email_only (e : String)
    (customers : List Customer) (orders : List Order) :
    (apiOrdersVerify (some e) none customers orders).status ≠ 400 ∧
    (customers.find? (fun c => c.email == jsToLower e) = none →
      apiOrdersVerify (some e) none customers orders = ⟨404, none, none⟩) ∧
    (∀ c, customers.find? (fun c => c.email == jsToLower e) = some c →
      apiOrdersVerify (some e) none customers orders =
        ⟨200, none, some (sortByCreatedDesc (orders.filter (fun o => o.customer == c.id)))⟩ ∧
      ∀ o, o ∈ sortByCreatedDesc (orders.filter (fun o => o.customer == c.id)) ↔
        o ∈ orders.filter (fun o => o.customer == c.id)) := by
  refine ⟨?_, ?_, ?_⟩
  · unfold apiOrdersVerify
    cases h : customers.find? (fun c => c.email == jsToLower e) <;> simp [h]
  · intro hn
    simp [apiOrdersVerify, hn]
  · intro c hc
    exact ⟨by simp [apiOrdersVerify, hc], fun o => mem_sortByCreatedDesc o _⟩

/-- Witness for C9: email A@B.com, lowercased to a@b.com, matches the stored
customer; the handler returns 200 with that customer's orders. -/
theorem apiOrdersVerify_email_only_witness :
    apiOrdersVerify (some "A@B.com") none [custA] [baseOrder] =
      ⟨200, none,
       some (sortByCreatedDesc (([baseOrder] : List Order).filter
         (fun o => o.customer == custA.id)))⟩ :=
  ((apiOrdersVerify_email_only "A@B.com" [custA] [baseOrder]).2.2 custA (by decide)).1

/-! ## C10: payment initialization overwrites paymentReference -/

/-- C10: whenever the order is found and the gateway initialize call
succeeds, POST /api/payments/initialize replaces the found order — whatever
its current paymentReference, set or not — by the very same order with
paymentReference set to the fresh reference order_<id>_<now>; every other
order and every other field of this order is left unchanged, and the fresh
reference is returned with status 200. -/
theorem apiPaymentsInitialize_overwrites (orderId now : Nat) (orders : List Order)
    (o : Order) (hfind : orders.find? (fun x => x.id == orderId) = some o) :
    ∃ l1 l2, orders = l1 ++ o :: l2 ∧
      apiPaymentsInitialize orderId now true orders =
        (200,
         l1 ++ { o with paymentReference := some ("order_" ++ toString o.id ++ "_" ++ toString now) } :: l2,
         some ("order_" ++ toString o.id ++ "_" ++ toString now)) := by
  have hoid : o.id = orderId := by
    have hp := List.find?_some hfind
    simpa using hp
  obtain ⟨l1, l2, hl, hup⟩ :=
    updateFirst_decomp (fun x => x.id == o.id)
      (fun x => { x with paymentReference := some ("order_" ++ toString o.id ++ "_" ++ toString now) })
      orders o (by rwa [hoid])
  refine ⟨l1, l2, hl, ?_⟩
  simp only [apiPaymentsInitialize, hfind, if_pos]
  rw [hup]

/-- An order that already carries a payment reference from an earlier
initialization. -/
def initializedOrder : Order :=
  { baseOrder with id := 42, paymentReference := some "order_42_111" }

/-- Witness for C10: re-initializing payment for an order whose
paymentReference is already set overwrites it with the fresh reference. -/
theorem apiPaymentsInitialize_overwrites_witness :
    ∃ l1 l2, [initializedOrder] = l1 ++ initializedOrder :: l2 ∧
      apiPaymentsInitialize 42 222 true [initializedOrder] =
        (200,
         l1 ++ { initializedOrder with paymentReference := some ("order_" ++ toString initializedOrder.id ++ "_" ++ toString 222) } :: l2,
         some ("order_" ++ toString initializedOrder.id ++ "_" ++ toString 222)) :=
  apiPaymentsInitialize_overwrites 42 222 [initializedOrder] initializedOrder (by decide)

end PhilBackend
